import Mathlib

/-!
Verification of the GPSTk store-and-propagate core against its specification.

The development shallowly embeds three source files:

* `dev/ext/lib/GNSSEph/BDSEphemeris.cpp` — validity-window computation
  (`adjustValidity`), validity and health predicates (`isValid`, `isHealthy`),
  and the PRN-dispatched position computation `svXvt`, whose geostationary
  branch (PRN 1..5) solves Kepler's equation by a capped Newton loop and then
  rotates the intermediate vector by two explicitly constructed 3x3 matrices.
* `dev/src/GalEphemerisStore.hpp` — the `findEphemeris` lookup and its
  satellite-system gate.
* `dev/lib/procframe/SatArcMarker.cpp` — the `unstablePeriod` clamping done by
  the constructor and by `setUnstablePeriod`.

Modelling conventions: C++ `double` values are modelled as exact rationals
(`ℚ`); the double-precision math-library routines (`sin`, `cos`, `sqrt`,
`atan2`, `fmod`) and the external collaborators that live outside the three
embedded files (the `WGS84Ellipsoid` constants, the `GPSWeekSecond` time
conversion, the `OrbitEph` base-class clock and position routines, the
`OrbitEphStore` search routine) are abstracted as an explicit environment of
function parameters: every branch the embedded source takes depends only on
the values those collaborators return, so theorems quantified over the
environment cover the concrete program. C++ exceptions are modelled with
`Except`: each distinct `InvalidRequest` message becomes a tag.
-/

namespace Gpstk

/-- Tags for the distinct `InvalidRequest` exception messages thrown by the
embedded source. -/
inductive ErrMsg where
  | dataNotLoaded
  | invalidSatelliteSystem
  | ephemerisNotFound
deriving DecidableEq

/-- The `gpstk::InvalidRequest` exception, carrying its message tag. -/
inductive Err where
  | InvalidRequest (msg : ErrMsg)
deriving DecidableEq

/-- Satellite-system enumeration from `SatID.hpp` (members used here). -/
inductive SatelliteSystem where
  | systemGPS
  | systemGalileo
  | systemGlonass
  | systemGeosync
  | systemBeiDou
  | systemQZSS
  | systemMixed
  | systemUnknown
deriving DecidableEq

/-- `gpstk::SatID`: a satellite number together with its system. -/
structure SatID where
  id : Int
  system : SatelliteSystem
deriving DecidableEq

/-- A 3-vector of (exact-rational model) doubles. -/
structure Vec3 where
  x : ℚ
  y : ℚ
  z : ℚ
deriving DecidableEq

/-- Reference-frame tag carried on an `Xvt` (members used here). -/
inductive ReferenceFrame where
  | Unknown
  | WGS84
deriving DecidableEq

/-- `gpstk::Xvt`: position, velocity, clock bias/drift, relativity correction
and frame tag, as produced by `svXvt`. -/
structure Xvt where
  x : Vec3
  v : Vec3
  clkbias : ℚ
  clkdrift : ℚ
  relcorr : ℚ
  frame : ReferenceFrame
deriving DecidableEq

/-- The fields of `gpstk::BDSEphemeris` (with those inherited from `OrbitEph`)
that the embedded member functions read or write.  `CommonTime` values are
modelled as rational second counts on a common axis. -/
structure BDSEphemeris where
  satID : Int
  dataLoadedFlag : Bool
  ctToe : ℚ
  transmitTime : ℚ
  beginValid : ℚ
  endValid : ℚ
  health : Int
  A : ℚ
  Adot : ℚ
  ecc : ℚ
  i0 : ℚ
  idot : ℚ
  OMEGA0 : ℚ
  OMEGAdot : ℚ
  w : ℚ
  M0 : ℚ
  dn : ℚ
  dndot : ℚ
  Cuc : ℚ
  Cus : ℚ
  Crc : ℚ
  Crs : ℚ
  Cic : ℚ
  Cis : ℚ
deriving DecidableEq

/-- `GalEphemerisStore::findEphemeris` (GalEphemerisStore.hpp, lines 95-113).
The underlying `OrbitEphStore::findOrbitEph` search lives outside the embedded
sources, so it is a parameter returning `none` for a null pointer.  The source
gate is transcribed as written: it rejects any satellite whose system is not
`systemBeiDou`, and otherwise consults the search routine. -/
def GalEphemerisStore.findEphemeris {α : Type} (findOrbitEph : SatID → ℚ → Option α)
    (sat : SatID) (t : ℚ) : Except Err α :=
  if sat.system ≠ SatelliteSystem.systemBeiDou then
    Except.error (Err.InvalidRequest ErrMsg.invalidSatelliteSystem)
  else
    match findOrbitEph sat t with
    | none => Except.error (Err.InvalidRequest ErrMsg.ephemerisNotFound)
    | some eph => Except.ok eph

/-- `BDSEphemeris::isValid` (BDSEphemeris.cpp, lines 60-67): true exactly when
`beginValid ≤ ct` and `ct ≤ endValid` — both comparisons inclusive. -/
def BDSEphemeris.isValid (eph : BDSEphemeris) (ct : ℚ) : Bool :=
  decide (eph.beginValid ≤ ct) && decide (ct ≤ eph.endValid)

/-- `BDSEphemeris::isHealthy` (BDSEphemeris.cpp, lines 70-78): the base-class
call `OrbitEph::isHealthy()` is made only for its data-loaded check, which
throws `InvalidRequest` when `dataLoadedFlag` is unset; then the BeiDou health
code is compared with zero. -/
def BDSEphemeris.isHealthy (eph : BDSEphemeris) : Except Err Bool :=
  if eph.dataLoadedFlag = false then
    Except.error (Err.InvalidRequest ErrMsg.dataNotLoaded)
  else
    Except.ok (eph.health == 0)

/-- `BDSEphemeris::adjustValidity` (BDSEphemeris.cpp, lines 91-104): after the
base-class data-loaded check, `beginValid` defaults to `ctToe`, is moved to
`transmitTime` when the latter is greater, and `endValid` is `ctToe` plus one
hour. -/
def BDSEphemeris.adjustValidity (eph : BDSEphemeris) : Except Err BDSEphemeris :=
  if eph.dataLoadedFlag = false then
    Except.error (Err.InvalidRequest ErrMsg.dataNotLoaded)
  else
    let b0 := eph.ctToe
    let b := if eph.transmitTime > b0 then eph.transmitTime else b0
    Except.ok { eph with beginValid := b, endValid := eph.ctToe + 3600 }

/-- The external collaborators of `BDSEphemeris::svXvt` that live outside the
embedded sources, gathered as one environment: the double-precision
math-library routines, the `WGS84Ellipsoid` constants `gm()` and
`angVelocity()`, the constant `PI`, the `GPSWeekSecond` seconds-of-week
conversion `sow`, the `OrbitEph` clock routines `svRelativity`, `svClockBias`
and `svClockDrift`, and the base-class position routine `OrbitEph::svXvt`
(Variant A).  Every branch of the embedded `svXvt` depends only on the values
these return, so a theorem quantified over `Env` covers the concrete
program. -/
structure Env where
  sin : ℚ → ℚ
  cos : ℚ → ℚ
  sqrt : ℚ → ℚ
  atan2 : ℚ → ℚ → ℚ
  fmod : ℚ → ℚ → ℚ
  pi : ℚ
  gm : ℚ
  angVelocity : ℚ
  sow : ℚ → ℚ
  svRelativity : BDSEphemeris → ℚ → ℚ
  svClockBias : BDSEphemeris → ℚ → ℚ
  svClockDrift : BDSEphemeris → ℚ → ℚ
  orbitEphSvXvt : BDSEphemeris → ℚ → Xvt

/-- One body of the Kepler do-while loop (BDSEphemeris.cpp, lines 225-228):
from the current eccentric anomaly compute `F`, `G`, the increment `delea`,
and the updated anomaly; returns `(updated ea, delea)`. -/
def keplerStep (env : Env) (lecc meana ea : ℚ) : ℚ × ℚ :=
  let F := meana - (ea - lecc * env.sin ea)
  let G := 1 - lecc * env.cos ea
  let delea := F / G
  (ea + delea, delea)

/-- The Kepler do-while loop (BDSEphemeris.cpp, lines 223-230): the body runs,
`loop_cnt` is incremented, and the loop repeats while `|delea| > 1.0e-11` and
`loop_cnt ≤ 20`.  The structural `fuel` argument only bounds the recursion; it
is called with fuel 20, which the counter test `cnt + 1 ≤ 20` exhausts first,
so the fuel-out branch is unreachable from the entry point.  Returns the final
`(ea, delea, loop_cnt)`. -/
def keplerLoop (env : Env) (lecc meana : ℚ) : ℚ → Nat → Nat → ℚ × ℚ × Nat
  | ea, cnt, 0 =>
    let s := keplerStep env lecc meana ea
    (s.1, s.2, cnt + 1)
  | ea, cnt, fuel + 1 =>
    let s := keplerStep env lecc meana ea
    if 1 / 100000000000 < |s.2| ∧ cnt + 1 ≤ 20 then
      keplerLoop env lecc meana s.1 (cnt + 1) fuel
    else
      (s.1, s.2, cnt + 1)

/-- The Kepler-solving prefix of the geostationary branch of
`BDSEphemeris::svXvt` (BDSEphemeris.cpp, lines 194-230): mean motion, mean
anomaly (reduced mod 2π), the seeded eccentric anomaly, then the capped Newton
loop started with `loop_cnt = 1`.  Returns the loop's final
`(ea, delea, loop_cnt)`. -/
def keplerResult (env : Env) (eph : BDSEphemeris) (t : ℚ) : ℚ × ℚ × Nat :=
  let sqrtgm := env.sqrt env.gm
  let twoPI := 2 * env.pi
  let lecc := eph.ecc
  let Ahalf := env.sqrt eph.A
  let elapte := t - eph.ctToe
  let dnA := eph.dn + 1 / 2 * eph.dndot * elapte
  let amm := sqrtgm / (eph.A * Ahalf) + dnA
  let meana := env.fmod (eph.M0 + elapte * amm) twoPI
  let ea0 := meana + lecc * env.sin meana
  keplerLoop env lecc meana ea0 1 20

/-- The matrix the source names `matZ` (BDSEphemeris.cpp, lines 310-320),
applied to a column vector.  Its rows are `(1,0,0)`, `(0,cos,sin)`,
`(0,-sin,cos)`: it leaves the first coordinate fixed and mixes the second and
third. -/
def matZapply (c s : ℚ) (v : Vec3) : Vec3 :=
  ⟨v.x, c * v.y + s * v.z, -s * v.y + c * v.z⟩

/-- The matrix the source names `matX` (BDSEphemeris.cpp, lines 326-335),
applied to a column vector.  Its rows are `(cos,sin,0)`, `(-sin,cos,0)`,
`(0,0,1)`: it leaves the third coordinate fixed and mixes the first and
second. -/
def matXapply (c s : ℚ) (v : Vec3) : Vec3 :=
  ⟨c * v.x + s * v.y, -s * v.x + c * v.y, v.z⟩

/-- The final coordinate transformation of the geostationary branch
(BDSEphemeris.cpp, line 344): `result = matZ * matX * inertialPos`, where
`matZ` is built from the cosine/sine of `angVelocity·elapte` and `matX` from
the cosine/sine of the constant tilt angle. -/
def geoRotation (cosZ sinZ cosX sinX : ℚ) (v : Vec3) : Vec3 :=
  matZapply cosZ sinZ (matXapply cosX sinX v)

/-- Modelled from the spec: a rotation about the third coordinate axis, in the
row convention the source uses for its z-pattern matrix — it leaves the third
coordinate fixed. -/
def rotAxis3 (c s : ℚ) (v : Vec3) : Vec3 :=
  ⟨c * v.x + s * v.y, -s * v.x + c * v.y, v.z⟩

/-- Modelled from the spec: a rotation about the first coordinate axis, in the
row convention the source uses for its x-pattern matrix — it leaves the first
coordinate fixed. -/
def rotAxis1 (c s : ℚ) (v : Vec3) : Vec3 :=
  ⟨v.x, c * v.y + s * v.z, -s * v.y + c * v.z⟩

/-- Modelled from the spec (claim C1): the intermediate vector is
left-multiplied by (third-axis rotation by `earthRotationRate·elapsed`)
composed with (first-axis rotation by the constant tilt angle). -/
def specGeoRotation (cosZ sinZ cosX sinX : ℚ) (v : Vec3) : Vec3 :=
  rotAxis3 cosZ sinZ (rotAxis1 cosX sinX v)

/-- The geostationary branch of `BDSEphemeris::svXvt` after the Kepler loop
(BDSEphemeris.cpp, lines 234-392), as a function of the eccentric anomaly the
loop produced: clock terms, true anomaly, second-harmonic corrections,
in-plane position, node/inclination rotation to the intermediate vector
`(xGK, yGK, zGK)`, the `matZ * matX` transformation, and the zeroed
velocity. -/
def geoFromEA (env : Env) (eph : BDSEphemeris) (t : ℚ) (ea : ℚ) : Xvt :=
  let elapte := t - eph.ctToe
  let Ak := eph.A + eph.Adot * elapte
  let lecc := eph.ecc
  let tdrinc := eph.idot
  let ToeSOW := env.sow eph.ctToe
  let q := env.sqrt (1 - lecc * lecc)
  let sinea := env.sin ea
  let cosea := env.cos ea
  let G := 1 - lecc * cosea
  let GSTA := q * sinea
  let GCTA := cosea - lecc
  let truea := env.atan2 GSTA GCTA
  let alat := truea + eph.w
  let talat := 2 * alat
  let c2al := env.cos talat
  let s2al := env.sin talat
  let du := c2al * eph.Cuc + s2al * eph.Cus
  let dr := c2al * eph.Crc + s2al * eph.Crs
  let di := c2al * eph.Cic + s2al * eph.Cis
  let U := alat + du
  let R := Ak * G + dr
  let AINC := eph.i0 + tdrinc * elapte + di
  let ANLON := eph.OMEGA0 + eph.OMEGAdot * elapte - env.angVelocity * ToeSOW
  let cosu := env.cos U
  let sinu := env.sin U
  let xip := R * cosu
  let yip := R * sinu
  let can := env.cos ANLON
  let san := env.sin ANLON
  let cinc := env.cos AINC
  let sinc := env.sin AINC
  let xGK := xip * can - yip * cinc * san
  let yGK := xip * san + yip * cinc * can
  let zGK := yip * sinc
  let angleZ := env.angVelocity * elapte
  let cosZ := env.cos angleZ
  let sinZ := env.sin angleZ
  let angleX := -5 * env.pi / 180
  let cosX := env.cos angleX
  let sinX := env.sin angleX
  let pos := geoRotation cosZ sinZ cosX sinX ⟨xGK, yGK, zGK⟩
  { x := pos
    v := ⟨0, 0, 0⟩
    clkbias := env.svClockBias eph t
    clkdrift := env.svClockDrift eph t
    relcorr := env.svRelativity eph t
    frame := ReferenceFrame.WGS84 }

/-- The whole geostationary branch: Kepler solve, then the downstream
computation on the loop's final eccentric anomaly. -/
def svXvtGEO (env : Env) (eph : BDSEphemeris) (t : ℚ) : Xvt :=
  geoFromEA env eph t (keplerResult env eph t).1

/-- `BDSEphemeris::svXvt` (BDSEphemeris.cpp, lines 156-393): throws
`InvalidRequest` when data are not loaded, delegates to `OrbitEph::svXvt` for
satellite ids above 5, and otherwise runs the geostationary branch. -/
def BDSEphemeris.svXvt (env : Env) (eph : BDSEphemeris) (t : ℚ) :
    Except Err Xvt :=
  if eph.dataLoadedFlag = false then
    Except.error (Err.InvalidRequest ErrMsg.dataNotLoaded)
  else if 5 < eph.satID then
    Except.ok (env.orbitEphSvXvt eph t)
  else
    Except.ok (svXvtGEO env eph t)

/-- The fields of `gpstk::SatArcMarker` touched by the embedded constructor and
setter; the cycle-slip flag is an opaque tag. -/
structure SatArcMarker where
  watchCSFlag : Nat
  deleteUnstableSats : Bool
  unstablePeriod : ℚ
deriving DecidableEq

/-- The `SatArcMarker` common constructor (SatArcMarker.cpp, lines 59-75):
stores the flag and deletion switch and clamps a non-positive `unstableTime`
to zero. -/
def SatArcMarker.construct (watchFlag : Nat) (delUnstableSats : Bool)
    (unstableTime : ℚ) : SatArcMarker :=
  { watchCSFlag := watchFlag
    deleteUnstableSats := delUnstableSats
    unstablePeriod := if unstableTime > 0 then unstableTime else 0 }

/-- `SatArcMarker::setUnstablePeriod` (SatArcMarker.cpp, lines 85-98): the same
clamp, applied to an existing object. -/
def SatArcMarker.setUnstablePeriod (m : SatArcMarker) (unstableTime : ℚ) :
    SatArcMarker :=
  { m with unstablePeriod := if unstableTime > 0 then unstableTime else 0 }

/-- A zero `Xvt`, used as the value of abstract collaborators in concrete
instantiations. -/
def xvtZero : Xvt :=
  { x := ⟨0, 0, 0⟩, v := ⟨0, 0, 0⟩, clkbias := 0, clkdrift := 0, relcorr := 0
    frame := ReferenceFrame.Unknown }

/-- A concrete environment under which the Kepler loop never meets the
convergence threshold: every Newton step has increment exactly 1 (with
eccentricity 1 and mean anomaly 0, `F = 1` and `G = 1` at every visited
anomaly). -/
def envNC : Env :=
  { sin := fun a => 1 + a
    cos := fun _ => 0
    sqrt := fun _ => 0
    atan2 := fun _ _ => 0
    fmod := fun a _ => a
    pi := 3
    gm := 0
    angVelocity := 0
    sow := fun _ => 0
    svRelativity := fun _ _ => 0
    svClockBias := fun _ _ => 0
    svClockDrift := fun _ _ => 0
    orbitEphSvXvt := fun _ _ => xvtZero }

/-- A concrete loaded geostationary-class record (satellite id 3). -/
def ephBase : BDSEphemeris :=
  { satID := 3, dataLoadedFlag := true, ctToe := 0, transmitTime := 0
    beginValid := 0, endValid := 0, health := 0, A := 1, Adot := 0, ecc := 1
    i0 := 0, idot := 0, OMEGA0 := 0, OMEGAdot := 0, w := 0, M0 := 0, dn := 0
    dndot := 0, Cuc := 0, Cus := 0, Crc := 0, Crs := 0, Cic := 0, Cis := 0 }

/-- Record with transmit time 120 s after its epoch (Toe = 0). -/
def ephC5 : BDSEphemeris := { ephBase with transmitTime := 120 }

/-- The record `adjustValidity` produces from `ephC5`. -/
def outC5 : BDSEphemeris := { ephC5 with beginValid := 120, endValid := 3600 }

/-- Record with transmit time 4000 s after its epoch — more than the fixed
3600 s window. -/
def ephC6 : BDSEphemeris := { ephBase with transmitTime := 4000 }

/-- The record `adjustValidity` produces from `ephC6`. -/
def outC6 : BDSEphemeris := { ephC6 with beginValid := 4000, endValid := 3600 }

/-- Record whose validity window is [0, 10]. -/
def ephC7 : BDSEphemeris := { ephBase with beginValid := 0, endValid := 10 }

/-- Record whose required fields are not populated. -/
def ephC8u : BDSEphemeris := { ephBase with dataLoadedFlag := false }

/-- A loaded record with satellite id 6 (MEO/IGSO class). -/
def ephC9 : BDSEphemeris := { ephBase with satID := 6 }

/-- A concrete `SatArcMarker`. -/
def m7 : SatArcMarker := SatArcMarker.construct 0 false 7

/-- Helper: what `adjustValidity` computes on a loaded record, in closed
form. -/
theorem adjustValidity_eq (eph : BDSEphemeris) (hL : eph.dataLoadedFlag = true) :
    eph.adjustValidity
      = Except.ok { eph with beginValid := max eph.ctToe eph.transmitTime,
                             endValid := eph.ctToe + 3600 } := by
  unfold BDSEphemeris.adjustValidity
  rw [if_neg (by simp [hL])]
  dsimp only
  split_ifs with h
  · rw [max_eq_right h.le]
  · rw [max_eq_left (not_lt.mp h)]

/-- Helper: the sine oracle of `envNC`, by definition. -/
theorem envNC_sin (a : ℚ) : envNC.sin a = 1 + a := rfl

/-- Helper: the cosine oracle of `envNC`, by definition. -/
theorem envNC_cos (a : ℚ) : envNC.cos a = 0 := rfl

/-- Helper: the square-root oracle of `envNC`, by definition. -/
theorem envNC_sqrt (a : ℚ) : envNC.sqrt a = 0 := rfl

/-- Helper: the fmod oracle of `envNC`, by definition. -/
theorem envNC_fmod (a b : ℚ) : envNC.fmod a b = a := rfl

/-- Helper: the `pi` constant of `envNC`, by definition. -/
theorem envNC_pi : envNC.pi = 3 := rfl

/-- Helper: the `gm` constant of `envNC`, by definition. -/
theorem envNC_gm : envNC.gm = 0 := rfl

/-- Helper: fields of `ephBase`, by definition. -/
theorem ephBase_fields :
    ephBase.ecc = 1 ∧ ephBase.A = 1 ∧ ephBase.ctToe = 0 ∧ ephBase.M0 = 0 ∧
    ephBase.dn = 0 ∧ ephBase.dndot = 0 :=
  ⟨rfl, rfl, rfl, rfl, rfl, rfl⟩

/-- Helper: under `envNC` with eccentricity 1 and mean anomaly 0, every Newton
step has increment exactly 1. -/
theorem keplerStep_envNC (ea : ℚ) : keplerStep envNC 1 0 ea = (ea + 1, 1) := by
  unfold keplerStep
  rw [envNC_sin, envNC_cos]
  have h1 : (0 : ℚ) - (ea - 1 * (1 + ea)) = 1 := by ring
  have h2 : (1 : ℚ) - 1 * 0 = 1 := by norm_num
  dsimp only
  rw [h1, h2, div_one]

/-- Helper: under `envNC`, the Kepler loop runs to the iteration cap, adding 1
to the anomaly on each of its passes, and exits with increment 1 and counter
21. -/
theorem keplerLoop_envNC : ∀ (fuel cnt : Nat) (ea : ℚ),
    cnt + fuel = 21 → 1 ≤ fuel →
    keplerLoop envNC 1 0 ea cnt fuel = (ea + (fuel : ℚ), 1, 21) := by
  intro fuel
  induction fuel with
  | zero =>
    intro cnt ea h h1
    exact absurd h1 (by omega)
  | succ f ih =>
    intro cnt ea h _
    simp only [keplerLoop, keplerStep_envNC]
    by_cases hf : f = 0
    · subst hf
      have hcnt : cnt = 20 := by omega
      subst hcnt
      rw [if_neg (by rintro ⟨-, hc⟩; omega)]
      norm_num
    · rw [if_pos ⟨by norm_num, by omega⟩,
        ih (cnt + 1) (ea + 1) (by omega) (by omega), Nat.cast_add, Nat.cast_one,
        show ea + 1 + (f : ℚ) = ea + ((f : ℚ) + 1) from by ring]

/-- Helper: the Kepler-solving prefix of the geostationary branch, at the
concrete non-convergent instance: the loop exits at the cap with final
anomaly 21, final increment 1 and counter 21. -/
theorem keplerResult_envNC : keplerResult envNC ephBase 0 = (21, 1, 21) := by
  have h0 : keplerResult envNC ephBase 0 = keplerLoop envNC 1 0 1 1 20 := by
    unfold keplerResult
    simp only [envNC_sin, envNC_sqrt, envNC_fmod, envNC_pi, envNC_gm,
      ephBase_fields.1, ephBase_fields.2.1, ephBase_fields.2.2.1,
      ephBase_fields.2.2.2.1, ephBase_fields.2.2.2.2.1,
      ephBase_fields.2.2.2.2.2]
    norm_num
  rw [h0, keplerLoop_envNC 20 1 1 (by norm_num) (by norm_num)]
  norm_num

/-- Claim C1: evaluation of the source transformation against the claimed
one.  With the earth-rotation angle at cosine 0 / sine 1, the tilt angle at
cosine 1 / sine 0 and intermediate vector (0,1,0), the source's
`matZ * matX` product sends the vector to (0,0,-1): the matrix built from the
earth-rotation angle moves the third coordinate, so it is not a rotation about
the third axis.  The claimed (third-axis earth rotation) ∘ (first-axis tilt)
sends the same vector to (1,0,0). -/
theorem geo_rotation_axis_swap :
    geoRotation 0 1 1 0 ⟨0, 1, 0⟩ = ⟨0, 0, -1⟩ ∧
    specGeoRotation 0 1 1 0 ⟨0, 1, 0⟩ = ⟨1, 0, 0⟩ ∧
    geoRotation 0 1 1 0 ⟨0, 1, 0⟩ ≠ specGeoRotation 0 1 1 0 ⟨0, 1, 0⟩ := by
  have h1 : geoRotation 0 1 1 0 ⟨0, 1, 0⟩ = ⟨0, 0, -1⟩ := by
    norm_num [geoRotation, matZapply, matXapply]
  have h2 : specGeoRotation 0 1 1 0 ⟨0, 1, 0⟩ = ⟨1, 0, 0⟩ := by
    norm_num [specGeoRotation, rotAxis3, rotAxis1]
  refine ⟨h1, h2, ?_⟩
  rw [h1, h2]
  norm_num

/-- Claim C2: evaluation of `GalEphemerisStore::findEphemeris` at the failing
input.  With a search routine that always finds a record, a Galileo satellite
(the store's own constellation) is rejected with the wrong-system
`InvalidRequest`, while a BeiDou satellite passes the constellation gate and
gets a result. -/
theorem galstore_wrong_system_check :
    GalEphemerisStore.findEphemeris (fun _ _ => some (0 : ℚ))
        ⟨1, SatelliteSystem.systemGalileo⟩ 0
      = Except.error (Err.InvalidRequest ErrMsg.invalidSatelliteSystem) ∧
    GalEphemerisStore.findEphemeris (fun _ _ => some (0 : ℚ))
        ⟨1, SatelliteSystem.systemBeiDou⟩ 0
      = Except.ok 0 :=
  ⟨rfl, rfl⟩

/-- Claim C3 (amended): on the geostationary branch, `svXvt` always returns
the state built from whatever eccentric anomaly the capped Kepler loop ends
with — converged or not; no non-convergence condition is surfaced, the only
failure being the data-not-loaded `InvalidRequest`. -/
theorem svxvt_geo_proceeds_after_cap (env : Env) (eph : BDSEphemeris) (t : ℚ)
    (hL : eph.dataLoadedFlag = true) (hId : eph.satID ≤ 5) :
    BDSEphemeris.svXvt env eph t
      = Except.ok (geoFromEA env eph t (keplerResult env eph t).1) := by
  unfold BDSEphemeris.svXvt
  rw [if_neg (by simp [hL]), if_neg (not_lt.mpr hId)]
  rfl

/-- Witness for claim C3's amended theorem, at the non-convergent concrete
instance. -/
theorem svxvt_geo_proceeds_after_cap_witness :
    BDSEphemeris.svXvt envNC ephBase 0
      = Except.ok (geoFromEA envNC ephBase 0 (keplerResult envNC ephBase 0).1) :=
  svxvt_geo_proceeds_after_cap envNC ephBase 0 rfl (by decide)

/-- Claim C3 counterexample: under `envNC`, the loop exits at the iteration
cap (`loop_cnt` = 21 after 20 passes) with final increment 1, far above the
1.0e-11 threshold, and `svXvt` still returns an `Except.ok` state computed
from the unconverged anomaly rather than surfacing any condition. -/
theorem svxvt_kepler_cap_silent :
    (keplerResult envNC ephBase 0).2.2 = 21 ∧
    1 / 100000000000 < |(keplerResult envNC ephBase 0).2.1| ∧
    BDSEphemeris.svXvt envNC ephBase 0 = Except.ok (svXvtGEO envNC ephBase 0) := by
  refine ⟨?_, ?_, ?_⟩
  · rw [keplerResult_envNC]
  · rw [keplerResult_envNC]
    norm_num
  · unfold BDSEphemeris.svXvt
    rw [if_neg (by simp [ephBase]), if_neg (by norm_num [ephBase])]

/-- Claim C4: the geostationary branch returns the zero vector as velocity for
every environment, record and query time — the analytic-velocity block in the
source is commented out and the components are assigned 0.0. -/
theorem svxvt_geo_velocity_is_zero (env : Env) (eph : BDSEphemeris) (t : ℚ) :
    (svXvtGEO env eph t).v = ⟨0, 0, 0⟩ := rfl

/-- Claim C5: on a loaded record, `adjustValidity` sets
`beginValid = max(Toe, transmitTime)` and `endValid = Toe + 3600`; a transmit
time strictly before Toe leaves `beginValid = Toe` and one strictly after Toe
moves it to the transmit time. -/
theorem adjustValidity_begin_max (eph out : BDSEphemeris)
    (hL : eph.dataLoadedFlag = true)
    (hok : eph.adjustValidity = Except.ok out) :
    out.beginValid = max eph.ctToe eph.transmitTime ∧
    out.endValid = eph.ctToe + 3600 ∧
    (eph.transmitTime < eph.ctToe → out.beginValid = eph.ctToe) ∧
    (eph.ctToe < eph.transmitTime → out.beginValid = eph.transmitTime) := by
  rw [adjustValidity_eq eph hL] at hok
  injection hok with h
  subst h
  refine ⟨rfl, rfl, ?_, ?_⟩
  · intro hlt
    simp [max_eq_left hlt.le]
  · intro hlt
    simp [max_eq_right hlt.le]

/-- Helper: `adjustValidity` on the concrete record `ephC5`, evaluated. -/
theorem ephC5_adjust : ephC5.adjustValidity = Except.ok outC5 := by
  rw [adjustValidity_eq ephC5 rfl]
  norm_num [ephC5, ephBase, outC5, max_def]

/-- Witness for claim C5 at Toe = 0, transmitTime = 120. -/
theorem adjustValidity_begin_max_witness :
    outC5.beginValid = max ephC5.ctToe ephC5.transmitTime ∧
    outC5.endValid = ephC5.ctToe + 3600 ∧
    (ephC5.transmitTime < ephC5.ctToe → outC5.beginValid = ephC5.ctToe) ∧
    (ephC5.ctToe < ephC5.transmitTime → outC5.beginValid = ephC5.transmitTime) :=
  adjustValidity_begin_max ephC5 outC5 rfl ephC5_adjust

/-- Claim C6 (amended): after `adjustValidity` on a loaded record,
`beginValid ≥ Toe` always holds, and `beginValid ≤ endValid` holds whenever
the transmit time is at most Toe + 3600. -/
theorem adjustValidity_invariant_amended (eph out : BDSEphemeris)
    (hL : eph.dataLoadedFlag = true)
    (hok : eph.adjustValidity = Except.ok out) :
    eph.ctToe ≤ out.beginValid ∧
    (eph.transmitTime ≤ eph.ctToe + 3600 → out.beginValid ≤ out.endValid) := by
  rw [adjustValidity_eq eph hL] at hok
  injection hok with h
  subst h
  constructor
  · exact le_max_left _ _
  · intro hle
    show max eph.ctToe eph.transmitTime ≤ eph.ctToe + 3600
    exact max_le (by linarith) hle

/-- Witness for claim C6's amended theorem. -/
theorem adjustValidity_invariant_amended_witness :
    ephC5.ctToe ≤ outC5.beginValid ∧
    (ephC5.transmitTime ≤ ephC5.ctToe + 3600 → outC5.beginValid ≤ outC5.endValid) :=
  adjustValidity_invariant_amended ephC5 outC5 rfl ephC5_adjust

/-- Claim C6 counterexample: with Toe = 0 and transmit time 4000 s (more than
3600 s after Toe), `adjustValidity` produces beginValid = 4000 and endValid =
3600, so `beginValid ≤ endValid` fails. -/
theorem adjustValidity_invariant_fails_late_transmit :
    BDSEphemeris.adjustValidity ephC6 = Except.ok outC6 ∧
    ¬(outC6.beginValid ≤ outC6.endValid) := by
  constructor
  · rw [adjustValidity_eq ephC6 rfl]
    norm_num [ephC6, ephBase, outC6, max_def]
  · norm_num [outC6, ephC6, ephBase]

/-- Claim C7 counterexample: with validity window fields 0 and 10, `isValid`
returns true at ct = endValid = 10, where the half-open reading requires
false. -/
theorem isValid_true_at_endValid :
    BDSEphemeris.isValid ephC7 10 = true ∧
    ¬(ephC7.beginValid ≤ 10 ∧ (10 : ℚ) < ephC7.endValid) := by
  constructor
  · norm_num [BDSEphemeris.isValid, ephC7, ephBase]
  · norm_num [ephC7, ephBase]

/-- Claim C7 (amended): `isValid ct` is true exactly when
`beginValid ≤ ct ∧ ct ≤ endValid` — both ends inclusive, so it is true at
`ct = endValid`. -/
theorem isValid_iff_closed_interval (eph : BDSEphemeris) (ct : ℚ) :
    eph.isValid ct = true ↔ (eph.beginValid ≤ ct ∧ ct ≤ eph.endValid) := by
  simp [BDSEphemeris.isValid]

/-- Claim C8: on a record whose required fields are populated, `isHealthy`
returns true exactly when the health code is 0; on an unpopulated record it
fails with the data-not-loaded `InvalidRequest` instead of returning a
boolean. -/
theorem isHealthy_iff_health_zero (eph : BDSEphemeris) :
    (eph.dataLoadedFlag = true →
      (eph.isHealthy = Except.ok true ↔ eph.health = 0)) ∧
    (eph.dataLoadedFlag = false →
      eph.isHealthy = Except.error (Err.InvalidRequest ErrMsg.dataNotLoaded)) := by
  constructor
  · intro hL
    simp [BDSEphemeris.isHealthy, hL]
  · intro hNL
    simp [BDSEphemeris.isHealthy, hNL]

/-- Witness for claim C8: a loaded record with health 0 and an unloaded
record. -/
theorem isHealthy_iff_health_zero_witness :
    (BDSEphemeris.isHealthy ephBase = Except.ok true ↔ ephBase.health = 0) ∧
    BDSEphemeris.isHealthy ephC8u
      = Except.error (Err.InvalidRequest ErrMsg.dataNotLoaded) :=
  ⟨(isHealthy_iff_health_zero ephBase).1 rfl,
   (isHealthy_iff_health_zero ephC8u).2 rfl⟩

/-- Claim C9: on a loaded record, `svXvt` returns exactly the base-class
`OrbitEph::svXvt` result when the satellite id exceeds 5, and runs the
geostationary branch when the id is between 1 and 5. -/
theorem svxvt_dispatch_by_prn (env : Env) (eph : BDSEphemeris) (t : ℚ)
    (hL : eph.dataLoadedFlag = true) :
    (5 < eph.satID →
      BDSEphemeris.svXvt env eph t = Except.ok (env.orbitEphSvXvt eph t)) ∧
    (1 ≤ eph.satID → eph.satID ≤ 5 →
      BDSEphemeris.svXvt env eph t = Except.ok (svXvtGEO env eph t)) := by
  constructor
  · intro h5
    unfold BDSEphemeris.svXvt
    rw [if_neg (by simp [hL]), if_pos h5]
  · intro _ h5
    unfold BDSEphemeris.svXvt
    rw [if_neg (by simp [hL]), if_neg (not_lt.mpr h5)]

/-- Witness for claim C9 at satellite ids 6 and 3. -/
theorem svxvt_dispatch_by_prn_witness :
    (BDSEphemeris.svXvt envNC ephC9 0 = Except.ok (envNC.orbitEphSvXvt ephC9 0)) ∧
    (BDSEphemeris.svXvt envNC ephBase 0 = Except.ok (svXvtGEO envNC ephBase 0)) :=
  ⟨(svxvt_dispatch_by_prn envNC ephC9 0 rfl).1 (by decide),
   (svxvt_dispatch_by_prn envNC ephBase 0 rfl).2 (by decide) (by decide)⟩

/-- Claim C10: `unstablePeriod` is non-negative after construction and after
`setUnstablePeriod`; a non-positive argument is stored as 0 and a positive one
unchanged. -/
theorem satArcMarker_unstablePeriod_nonneg (watchFlag : Nat) (del : Bool)
    (u : ℚ) (m : SatArcMarker) :
    0 ≤ (SatArcMarker.construct watchFlag del u).unstablePeriod ∧
    0 ≤ (m.setUnstablePeriod u).unstablePeriod ∧
    (u ≤ 0 → (SatArcMarker.construct watchFlag del u).unstablePeriod = 0 ∧
             (m.setUnstablePeriod u).unstablePeriod = 0) ∧
    (0 < u → (SatArcMarker.construct watchFlag del u).unstablePeriod = u ∧
             (m.setUnstablePeriod u).unstablePeriod = u) := by
  unfold SatArcMarker.construct SatArcMarker.setUnstablePeriod
  refine ⟨?_, ?_, ?_, ?_⟩
  · dsimp only
    split_ifs with h
    · exact h.le
    · exact le_refl 0
  · dsimp only
    split_ifs with h
    · exact h.le
    · exact le_refl 0
  · intro hu
    constructor <;> · dsimp only; rw [if_neg (not_lt.mpr hu)]
  · intro hu
    constructor <;> · dsimp only; rw [if_pos hu]

/-- Witness for claim C10 at arguments -2 and 7. -/
theorem satArcMarker_unstablePeriod_nonneg_witness :
    ((SatArcMarker.construct 0 false (-2)).unstablePeriod = 0 ∧
      (SatArcMarker.setUnstablePeriod m7 (-2)).unstablePeriod = 0) ∧
    ((SatArcMarker.construct 0 true 7).unstablePeriod = 7 ∧
      (SatArcMarker.setUnstablePeriod m7 7).unstablePeriod = 7) :=
  ⟨(satArcMarker_unstablePeriod_nonneg 0 false (-2) m7).2.2.1 (by norm_num),
   (satArcMarker_unstablePeriod_nonneg 0 true 7 m7).2.2.2 (by norm_num)⟩

end Gpstk
